import Mathlib

/-!
Shallow embedding of `src/server.py` (Meal Tracking MCP Server).

Modelling conventions:
* A timestamp is a `Nat`: seconds since the Unix epoch, UTC.  The Python code
  stores `datetime.now(timezone.utc).isoformat()` strings and compares them
  with `gte`; for UTC-aware ISO-8601 strings of a fixed offset, string order
  coincides with time order, so a `Nat` with `≤` is a faithful model.
* The Supabase `meals` table is a `List MealRecord` (the `Store`).  A query
  with `.eq`/`.gte`/`.is_` filters is `List.filter`; `.order("started_at")`
  is a stable sort (`List.insertionSort`) on `started_at` (ascending or
  descending per the `desc` flag); `.limit(1)` is `List.head?` of the
  sorted result.
* The calendar date `started.strftime("%Y-%m-%d")` used as a grouping key is
  modelled by the day number `t / 86400`; for dates in `%Y-%m-%d` form,
  lexicographic string order coincides with day-number order, so sorting the
  dictionary keys with `reverse=True` is sorting day numbers descending.
  Rendering of the date string uses the standard civil-from-days conversion.
* `SUPABASE_URL` / `SUPABASE_KEY` are `Option String` (as `os.environ.get`
  returns `None` when unset); Python truthiness of an optional string is
  `falsyStr`.  `get_supabase` raising `ValueError` is an `Except.error`, so
  each tool returns `Except String _`.
* Python's `list[:days]` slice with a possibly negative `days : int` is
  `pySlice`.
-/

namespace Meals

/-- `MealType = Literal["breakfast", "lunch", "dinner"]`. -/
inductive MealType where
  | breakfast
  | lunch
  | dinner
deriving DecidableEq, Repr

/-- The lowercase name of a meal type, as stored in the `type` column. -/
def MealType.str : MealType → String
  | .breakfast => "breakfast"
  | .lunch => "lunch"
  | .dinner => "dinner"

/-- `meal['type'].capitalize()` applied to the three enumeration values. -/
def MealType.cap : MealType → String
  | .breakfast => "Breakfast"
  | .lunch => "Lunch"
  | .dinner => "Dinner"

/-- A row of the `meals` table. -/
structure MealRecord where
  id : Nat
  user_id : String
  type : MealType
  started_at : Nat
  ended_at : Option Nat
deriving DecidableEq, Repr

/-- The `meals` table. -/
abbrev Store := List MealRecord

/-- The environment configuration read at module load. -/
structure Config where
  supabase_url : Option String
  supabase_key : Option String
deriving DecidableEq, Repr

/-- Python truthiness of `os.environ.get(...)`: falsy when unset or empty. -/
def falsyStr : Option String → Bool
  | none => true
  | some s => s == ""

/-- The condition under which `get_supabase` raises `ValueError`. -/
def Config.bad (c : Config) : Bool :=
  falsyStr c.supabase_url || falsyStr c.supabase_key

/-- The `ValueError` message raised by `get_supabase`. -/
def configError : String :=
  "SUPABASE_URL and SUPABASE_KEY environment variables required"

/-- The day number of a timestamp (calendar date of `started_at`). -/
def dayOf (t : Nat) : Nat := t / 86400

/-- `now.replace(hour=0, minute=0, second=0, microsecond=0)`. -/
def todayStart (t : Nat) : Nat := t / 86400 * 86400

/-- Zero-padded two-digit rendering, as in `strftime` fields. -/
def pad2 (n : Nat) : String :=
  if n < 10 then "0" ++ toString n else toString n

/-- Zero-padded four-digit rendering of the year. -/
def pad4 (n : Nat) : String :=
  if n < 10 then "000" ++ toString n
  else if n < 100 then "00" ++ toString n
  else if n < 1000 then "0" ++ toString n
  else toString n

/-- `strftime("%H:%M")` of a timestamp. -/
def timeStr (t : Nat) : String :=
  pad2 (t % 86400 / 3600) ++ ":" ++ pad2 (t % 3600 / 60)

/-- Civil date (year, month, day) from a day number since 1970-01-01,
standard proleptic-Gregorian conversion. -/
def civilFromDays (z0 : Nat) : Nat × Nat × Nat :=
  let z := z0 + 719468
  let era := z / 146097
  let doe := z % 146097
  let yoe := (doe - doe / 1460 + doe / 36524 - doe / 146096) / 365
  let y := yoe + era * 400
  let doy := doe - (365 * yoe + yoe / 4 - yoe / 100)
  let mp := (5 * doy + 2) / 153
  let d := doy - (153 * mp + 2) / 5 + 1
  let m := if mp < 10 then mp + 3 else mp - 9
  (if m ≤ 2 then y + 1 else y, m, d)

/-- `strftime("%Y-%m-%d")` of a day number. -/
def dateStr (d : Nat) : String :=
  let c := civilFromDays d
  pad4 c.1 ++ "-" ++ pad2 c.2.1 ++ "-" ++ pad2 c.2.2

/-- `"\n".join(lines)`. -/
def joinLines : List String → String
  | [] => ""
  | [x] => x
  | x :: xs => x ++ "\n" ++ joinLines xs

/-- The per-record report line shared by `get_meals_today` and
`get_meals_history`:
`f"  - {meal['type'].capitalize()}: {start_str} - {end_str} UTC"`. -/
def renderLine (r : MealRecord) : String :=
  "  - " ++ r.type.cap ++ ": " ++ timeStr r.started_at ++ " - " ++
    (match r.ended_at with
      | some e => timeStr e
      | none => "ongoing") ++ " UTC"

/-- `get_user_id`: `ctx.client_id or "anonymous"`. -/
def get_user_id (client_id : Option String) : String :=
  match client_id with
  | some s => if s == "" then "anonymous" else s
  | none => "anonymous"

/-- `start_meal`: insert a new open record (the store assigns `newId`) and
confirm.  Fails with the configuration error when `get_supabase` raises. -/
def start_meal (c : Config) (s : Store) (u : String) (mt : MealType) (t : Nat)
    (newId : Nat) : Except String (String × Store) :=
  if c.bad then .error configError
  else .ok ("Started " ++ mt.str ++ " at " ++ timeStr t ++ " UTC",
    s ++ [⟨newId, u, mt, t, none⟩])

/-- The filter of `end_meal`'s query: same user, same type, started today
(`gte` on `today_start`), `ended_at` null. -/
def isCandidate (u : String) (mt : MealType) (t : Nat) (r : MealRecord) : Bool :=
  r.user_id == u && r.type == mt && decide (todayStart t ≤ r.started_at) &&
    r.ended_at == none

/-- The record selected by `end_meal`'s query:
`.order("started_at", desc=True).limit(1)`. -/
def end_meal_target (s : Store) (u : String) (mt : MealType) (t : Nat) :
    Option MealRecord :=
  (List.insertionSort (fun a b => b.started_at ≤ a.started_at)
    (s.filter (isCandidate u mt t))).head?

/-- The row update `update({"ended_at": now.isoformat()}).eq("id", meal_id)`
applied to one record. -/
def setEnded (mid : Nat) (t : Nat) (r : MealRecord) : MealRecord :=
  if r.id = mid then { r with ended_at := some t } else r

/-- `end_meal`: find the most recent open meal of this type today and set its
end time, or report that none is active. -/
def end_meal (c : Config) (s : Store) (u : String) (mt : MealType) (t : Nat) :
    Except String (String × Store) :=
  if c.bad then .error configError
  else
    match end_meal_target s u mt t with
    | none =>
        .ok ("No active " ++ mt.str ++
          " found for today. Did you forget to start it?", s)
    | some r =>
        .ok ("Finished " ++ mt.str ++ " at " ++ timeStr t ++ " UTC",
          s.map (setEnded r.id t))

/-- The rows returned by `get_meals_today`'s query: same user, started today,
ordered by `started_at` ascending. -/
def todays (s : Store) (u : String) (t : Nat) : List MealRecord :=
  List.insertionSort (fun a b => a.started_at ≤ b.started_at)
    (s.filter (fun r => r.user_id == u && decide (todayStart t ≤ r.started_at)))

/-- `get_meals_today`: all of the caller's meals started today, one line per
record under a dated header. -/
def get_meals_today (c : Config) (s : Store) (u : String) (t : Nat) :
    Except String String :=
  if c.bad then .error configError
  else
    match todays s u t with
    | [] => .ok "No meals logged today."
    | data =>
        .ok (joinLines (("Meals for " ++ dateStr (dayOf t) ++ ":") ::
          data.map renderLine))

/-- The rows returned by `get_meals_history`'s query: same user, ordered by
`started_at` descending. -/
def userDesc (s : Store) (u : String) : List MealRecord :=
  List.insertionSort (fun a b => b.started_at ≤ a.started_at)
    (s.filter (fun r => r.user_id == u))

/-- Python's `l[:n]` slice for a possibly negative `n`. -/
def pySlice {α : Type} (l : List α) (n : Int) : List α :=
  if 0 ≤ n then l.take n.toNat else l.take ((l.length : Int) + n).toNat

/-- The distinct dates of the caller's records (the keys of
`meals_by_date`; order is irrelevant since they are re-sorted). -/
def allDates (s : Store) (u : String) : List Nat :=
  ((userDesc s u).map (fun r => dayOf r.started_at)).dedup

/-- `sorted(meals_by_date.keys(), reverse=True)[:days]`. -/
def historyDates (s : Store) (u : String) (days : Int) : List Nat :=
  pySlice (List.insertionSort (fun a b => b ≤ a) (allDates s u)) days

/-- The lines emitted for one date of the history report: the `\n{date}:`
header followed by that date's records in the grouped (insertion) order,
which is the query's descending `started_at` order. -/
def dateSection (recs : List MealRecord) (d : Nat) : List String :=
  ("\n" ++ dateStr d ++ ":") ::
    (recs.filter (fun r => dayOf r.started_at == d)).map renderLine

/-- `get_meals_history`: the caller's meals grouped by calendar date, the
last `days` dates with data, most recent first. -/
def get_meals_history (c : Config) (s : Store) (u : String) (days : Int) :
    Except String String :=
  if c.bad then .error configError
  else
    match userDesc s u with
    | [] => .ok "No meal history found."
    | recs =>
        match historyDates s u days with
        | [] => .ok "No meal history found."
        | dates =>
            .ok (joinLines
              (("Meal history (last " ++ toString days ++ " days):") ::
                (dates.map (dateSection recs)).flatten))

/-! ### Helper lemmas -/

instance : IsTotal MealRecord (fun a b => b.started_at ≤ a.started_at) :=
  ⟨fun a b => Nat.le_total b.started_at a.started_at⟩

instance : IsTrans MealRecord (fun a b => b.started_at ≤ a.started_at) :=
  ⟨fun _ _ _ h1 h2 => Nat.le_trans h2 h1⟩

instance : IsTotal MealRecord (fun a b => a.started_at ≤ b.started_at) :=
  ⟨fun a b => Nat.le_total a.started_at b.started_at⟩

instance : IsTrans MealRecord (fun a b => a.started_at ≤ b.started_at) :=
  ⟨fun _ _ _ h1 h2 => Nat.le_trans h1 h2⟩

instance : IsTotal Nat (fun a b => b ≤ a) := ⟨fun a b => Nat.le_total b a⟩

instance : IsTrans Nat (fun a b => b ≤ a) := ⟨fun _ _ _ h1 h2 => Nat.le_trans h2 h1⟩

/-- The head of a list sorted descending by `started_at` is a member of the
original list and maximal in it. -/
lemma head?_sortDesc {l : List MealRecord} {r : MealRecord}
    (h : (List.insertionSort (fun a b => b.started_at ≤ a.started_at) l).head? =
      some r) :
    r ∈ l ∧ ∀ x ∈ l, x.started_at ≤ r.started_at := by
  have hperm :=
    List.perm_insertionSort (fun a b : MealRecord => b.started_at ≤ a.started_at) l
  have hsorted : List.Pairwise (fun a b : MealRecord => b.started_at ≤ a.started_at)
      (List.insertionSort (fun a b => b.started_at ≤ a.started_at) l) :=
    List.sorted_insertionSort (fun a b : MealRecord => b.started_at ≤ a.started_at) l
  cases hml : List.insertionSort (fun a b : MealRecord => b.started_at ≤ a.started_at) l with
  | nil => rw [hml] at h; simp at h
  | cons x xs =>
    rw [hml] at h hperm hsorted
    rw [List.head?_cons, Option.some.injEq] at h
    rw [h] at hperm hsorted
    refine ⟨hperm.mem_iff.mp (List.mem_cons_self r xs), ?_⟩
    intro y hy
    have hy' : y ∈ r :: xs := hperm.mem_iff.mpr hy
    rcases List.mem_cons.mp hy' with hEq | hmem
    · rw [hEq]
    · exact (List.pairwise_cons.mp hsorted).1 y hmem

/-- Filtering with `p` factors through filtering with any weaker `q`. -/
lemma filter_restrict (p q : MealRecord → Bool)
    (hpq : ∀ r, p r = true → q r = true) (l : Store) :
    l.filter p = (l.filter q).filter p := by
  rw [List.filter_filter]
  apply List.filter_congr
  intro a _
  cases hp : p a with
  | false => simp
  | true => simp [hpq a hp]

/-- Two stores agreeing on a user's rows agree on any query that filters on
that user. -/
lemma filter_eq_of_user_eq {s₁ s₂ : Store} {u : String}
    (h : s₁.filter (fun r => r.user_id == u) = s₂.filter (fun r => r.user_id == u))
    (p : MealRecord → Bool) (hp : ∀ r, p r = true → (r.user_id == u) = true) :
    s₁.filter p = s₂.filter p := by
  rw [filter_restrict p _ hp s₁, filter_restrict p _ hp s₂, h]

lemma joinLines_cons (x : String) (xs : List String) :
    ∃ rest : String, joinLines (x :: xs) = x ++ rest := by
  cases xs with
  | nil => exact ⟨"", by simp [joinLines, String.append_empty]⟩
  | cons y ys =>
      exact ⟨"\n" ++ joinLines (y :: ys), by simp [joinLines, String.append_assoc]⟩

/-- A non-empty history report never coincides with the sentinel. -/
lemma history_header_ne (d : Int) (xs : List String) :
    joinLines (("Meal history (last " ++ toString d ++ " days):") :: xs) ≠
      "No meal history found." := by
  obtain ⟨rest, hr⟩ := joinLines_cons ("Meal history (last " ++ toString d ++ " days):") xs
  rw [hr]
  intro hEq
  have h1 : ("Meal history (last " ++ toString d ++ " days):" ++ rest).data.head? =
      ("No meal history found." : String).data.head? := by rw [hEq]
  rw [String.data_append, String.data_append, String.data_append] at h1
  have h2 : ("Meal history (last " : String).data =
      'M' :: ("eal history (last " : String).data := rfl
  have h3 : ("No meal history found." : String).data =
      'N' :: ("o meal history found." : String).data := rfl
  rw [h2, h3] at h1
  simp at h1

lemma pad2_len_two : ∀ n : Nat, n < 100 → (pad2 n).length = 2 := by decide

lemma hour_lt (t : Nat) : t % 86400 / 3600 < 24 := by
  have h1 : t % 86400 < 86400 := Nat.mod_lt t (by omega)
  exact (Nat.div_lt_iff_lt_mul (by omega)).mpr (by omega)

lemma minute_lt (t : Nat) : t % 3600 / 60 < 60 := by
  have h1 : t % 3600 < 3600 := Nat.mod_lt t (by omega)
  exact (Nat.div_lt_iff_lt_mul (by omega)).mpr (by omega)

/-! ### Claim theorems -/

/-- C4: if the caller has no open record of the given meal type started
today, `end_meal` returns the deterministic "no active meal" text and the
returned store is the input store, unchanged. -/
theorem end_meal_no_active (c : Config) (s : Store) (u : String) (mt : MealType)
    (t : Nat) (hc : c.bad = false)
    (h : s.filter (isCandidate u mt t) = []) :
    end_meal c s u mt t =
      .ok ("No active " ++ mt.str ++ " found for today. Did you forget to start it?",
        s) := by
  simp [end_meal, end_meal_target, hc, h, List.insertionSort]

/-- Witness for C4 at a concrete empty store. -/
theorem end_meal_no_active_witness :
    (⟨some "url", some "key"⟩ : Config).bad = false ∧
    ([] : Store).filter (isCandidate "alice" MealType.lunch 100) = [] ∧
    end_meal ⟨some "url", some "key"⟩ ([] : Store) "alice" MealType.lunch 100 =
      .ok ("No active " ++ MealType.lunch.str ++
        " found for today. Did you forget to start it?", ([] : Store)) :=
  ⟨by decide, by decide,
    end_meal_no_active ⟨some "url", some "key"⟩ [] "alice" MealType.lunch 100
      (by decide) (by decide)⟩

/-- C6: every rendered report line has the shape
`"  - {Capitalized type}: {HH:MM} - {HH:MM|ongoing} UTC"`, where both
timestamps render as 24-hour zero-padded `HH:MM` (two-digit hour below 24,
two-digit minute below 60, no seconds), and a null `ended_at` renders as the
literal `"ongoing"`. -/
theorem renderLine_format (r : MealRecord) :
    (∀ e, r.ended_at = some e →
      renderLine r = "  - " ++ r.type.cap ++ ": " ++ timeStr r.started_at ++
        " - " ++ timeStr e ++ " UTC") ∧
    (r.ended_at = none →
      renderLine r = "  - " ++ r.type.cap ++ ": " ++ timeStr r.started_at ++
        " - " ++ "ongoing" ++ " UTC") ∧
    (∀ t : Nat,
      timeStr t = pad2 (t % 86400 / 3600) ++ ":" ++ pad2 (t % 3600 / 60) ∧
      t % 86400 / 3600 < 24 ∧ t % 3600 / 60 < 60 ∧
      (pad2 (t % 86400 / 3600)).length = 2 ∧ (pad2 (t % 3600 / 60)).length = 2) := by
  refine ⟨?_, ?_, ?_⟩
  · intro e he
    simp [renderLine, he]
  · intro he
    simp [renderLine, he]
  · intro t
    exact ⟨rfl, hour_lt t, minute_lt t,
      pad2_len_two _ (by have := hour_lt t; omega),
      pad2_len_two _ (by have := minute_lt t; omega)⟩

/-- C7: when `SUPABASE_URL` or `SUPABASE_KEY` is absent, all four operations
fail with the configuration error, for every store alike (so before any read
or write of meal records). -/
theorem config_missing_fails_fast (c : Config) (s : Store) (u : String)
    (mt : MealType) (t : Nat) (newId : Nat) (days : Int)
    (h : c.supabase_url = none ∨ c.supabase_key = none) :
    start_meal c s u mt t newId = .error configError ∧
    end_meal c s u mt t = .error configError ∧
    get_meals_today c s u t = .error configError ∧
    get_meals_history c s u days = .error configError := by
  have hb : c.bad = true := by
    rcases h with h | h <;> simp [Config.bad, falsyStr, h]
  exact ⟨by simp [start_meal, hb], by simp [end_meal, hb],
    by simp [get_meals_today, hb], by simp [get_meals_history, hb]⟩

/-- Witness for C7 with the URL absent and a non-empty store. -/
theorem config_missing_fails_fast_witness :
    ((⟨none, some "key"⟩ : Config).supabase_url = none ∨
      (⟨none, some "key"⟩ : Config).supabase_key = none) ∧
    (start_meal ⟨none, some "key"⟩ [⟨1, "alice", MealType.lunch, 100, none⟩]
        "alice" MealType.lunch 200 2 = .error configError ∧
      end_meal ⟨none, some "key"⟩ [⟨1, "alice", MealType.lunch, 100, none⟩]
        "alice" MealType.lunch 200 = .error configError ∧
      get_meals_today ⟨none, some "key"⟩ [⟨1, "alice", MealType.lunch, 100, none⟩]
        "alice" 200 = .error configError ∧
      get_meals_history ⟨none, some "key"⟩ [⟨1, "alice", MealType.lunch, 100, none⟩]
        "alice" 7 = .error configError) :=
  ⟨Or.inl rfl,
    config_missing_fails_fast ⟨none, some "key"⟩
      [⟨1, "alice", MealType.lunch, 100, none⟩] "alice" MealType.lunch 200 2 7
      (Or.inl rfl)⟩

/-- C1: when at least one open record of the given type started today
exists, `end_meal` targets a candidate with maximal `started_at`, sets its
end time, and leaves every strictly earlier-started candidate open. -/
theorem end_meal_closes_most_recent (c : Config) (s : Store) (u : String)
    (mt : MealType) (t : Nat) (hc : c.bad = false)
    (hids : (s.map MealRecord.id).Nodup)
    (hne : s.filter (isCandidate u mt t) ≠ []) :
    ∃ r, end_meal_target s u mt t = some r ∧
      r ∈ s.filter (isCandidate u mt t) ∧
      (∀ x ∈ s.filter (isCandidate u mt t), x.started_at ≤ r.started_at) ∧
      end_meal c s u mt t =
        .ok ("Finished " ++ mt.str ++ " at " ++ timeStr t ++ " UTC",
          s.map (setEnded r.id t)) ∧
      (∀ x ∈ s.filter (isCandidate u mt t), x.started_at < r.started_at →
        setEnded r.id t x = x) := by
  have hperm := List.perm_insertionSort
    (fun a b : MealRecord => b.started_at ≤ a.started_at) (s.filter (isCandidate u mt t))
  cases hm : List.insertionSort (fun a b : MealRecord => b.started_at ≤ a.started_at)
      (s.filter (isCandidate u mt t)) with
  | nil =>
      rw [hm] at hperm
      exact absurd (hperm.symm.eq_nil) hne
  | cons r rs =>
      have hh : (List.insertionSort (fun a b : MealRecord => b.started_at ≤ a.started_at)
          (s.filter (isCandidate u mt t))).head? = some r := by
        rw [hm, List.head?_cons]
      have htgt : end_meal_target s u mt t = some r := hh
      obtain ⟨hmem, hmax⟩ := head?_sortDesc hh
      refine ⟨r, htgt, hmem, hmax, ?_, ?_⟩
      · simp [end_meal, hc, htgt]
      · intro y hy hlt
        have hyS : y ∈ s := (List.mem_filter.mp hy).1
        have hrS : r ∈ s := (List.mem_filter.mp hmem).1
        have hne2 : y ≠ r := by
          intro hEq
          rw [hEq] at hlt
          omega
        have hid : ¬ y.id = r.id := by
          intro hidEq
          exact hne2 (List.inj_on_of_nodup_map hids hyS hrS hidEq)
        simp [setEnded, hid]

/-- Witness for C1: two open lunches, the later one (id 2) is closed and
the earlier one (id 1) stays open. -/
theorem end_meal_closes_most_recent_witness :
    (⟨some "url", some "key"⟩ : Config).bad = false ∧
    (([⟨1, "a", MealType.lunch, 100, none⟩,
       ⟨2, "a", MealType.lunch, 200, none⟩] : Store).map MealRecord.id).Nodup ∧
    ([⟨1, "a", MealType.lunch, 100, none⟩,
      ⟨2, "a", MealType.lunch, 200, none⟩] : Store).filter
        (isCandidate "a" MealType.lunch 300) ≠ [] ∧
    (∃ r, end_meal_target
        [⟨1, "a", MealType.lunch, 100, none⟩,
         ⟨2, "a", MealType.lunch, 200, none⟩] "a" MealType.lunch 300 = some r ∧
      r ∈ ([⟨1, "a", MealType.lunch, 100, none⟩,
        ⟨2, "a", MealType.lunch, 200, none⟩] : Store).filter
          (isCandidate "a" MealType.lunch 300) ∧
      (∀ x ∈ ([⟨1, "a", MealType.lunch, 100, none⟩,
        ⟨2, "a", MealType.lunch, 200, none⟩] : Store).filter
          (isCandidate "a" MealType.lunch 300), x.started_at ≤ r.started_at) ∧
      end_meal ⟨some "url", some "key"⟩
          [⟨1, "a", MealType.lunch, 100, none⟩,
           ⟨2, "a", MealType.lunch, 200, none⟩] "a" MealType.lunch 300 =
        .ok ("Finished " ++ MealType.lunch.str ++ " at " ++ timeStr 300 ++ " UTC",
          ([⟨1, "a", MealType.lunch, 100, none⟩,
            ⟨2, "a", MealType.lunch, 200, none⟩] : Store).map (setEnded r.id 300)) ∧
      (∀ x ∈ ([⟨1, "a", MealType.lunch, 100, none⟩,
        ⟨2, "a", MealType.lunch, 200, none⟩] : Store).filter
          (isCandidate "a" MealType.lunch 300), x.started_at < r.started_at →
        setEnded r.id 300 x = x)) :=
  ⟨by decide, by decide, by decide,
    end_meal_closes_most_recent ⟨some "url", some "key"⟩
      [⟨1, "a", MealType.lunch, 100, none⟩, ⟨2, "a", MealType.lunch, 200, none⟩]
      "a" MealType.lunch 300 (by decide) (by decide) (by decide)⟩

/-- C9: when `end_meal` finds a match, it updates exactly the matched
record and only its `ended_at` field; every other record of the store is
unchanged. -/
theorem end_meal_frame (c : Config) (s : Store) (u : String) (mt : MealType)
    (t : Nat) (r : MealRecord) (hc : c.bad = false)
    (hids : (s.map MealRecord.id).Nodup)
    (hr : end_meal_target s u mt t = some r) :
    r ∈ s ∧
    end_meal c s u mt t =
      .ok ("Finished " ++ mt.str ++ " at " ++ timeStr t ++ " UTC",
        s.map (setEnded r.id t)) ∧
    setEnded r.id t r = { r with ended_at := some t } ∧
    (∀ x ∈ s, x ≠ r → setEnded r.id t x = x) := by
  have hh : (List.insertionSort (fun a b : MealRecord => b.started_at ≤ a.started_at)
      (s.filter (isCandidate u mt t))).head? = some r := hr
  obtain ⟨hmem, _⟩ := head?_sortDesc hh
  have hrS : r ∈ s := (List.mem_filter.mp hmem).1
  refine ⟨hrS, by simp [end_meal, hc, hr], by simp [setEnded], ?_⟩
  intro x hxS hxr
  have hid : ¬ x.id = r.id := by
    intro hidEq
    exact hxr (List.inj_on_of_nodup_map hids hxS hrS hidEq)
  simp [setEnded, hid]

/-- Witness for C9: closing the single open lunch rewrites only that row's
`ended_at`. -/
theorem end_meal_frame_witness :
    (⟨some "url", some "key"⟩ : Config).bad = false ∧
    (([⟨1, "a", MealType.lunch, 100, none⟩,
       ⟨2, "b", MealType.dinner, 150, none⟩] : Store).map MealRecord.id).Nodup ∧
    end_meal_target [⟨1, "a", MealType.lunch, 100, none⟩,
      ⟨2, "b", MealType.dinner, 150, none⟩] "a" MealType.lunch 300 =
      some ⟨1, "a", MealType.lunch, 100, none⟩ ∧
    (⟨1, "a", MealType.lunch, 100, none⟩ ∈
        ([⟨1, "a", MealType.lunch, 100, none⟩,
          ⟨2, "b", MealType.dinner, 150, none⟩] : Store) ∧
      end_meal ⟨some "url", some "key"⟩
          [⟨1, "a", MealType.lunch, 100, none⟩,
           ⟨2, "b", MealType.dinner, 150, none⟩] "a" MealType.lunch 300 =
        .ok ("Finished " ++ MealType.lunch.str ++ " at " ++ timeStr 300 ++ " UTC",
          ([⟨1, "a", MealType.lunch, 100, none⟩,
            ⟨2, "b", MealType.dinner, 150, none⟩] : Store).map
              (setEnded (MealRecord.id ⟨1, "a", MealType.lunch, 100, none⟩) 300)) ∧
      setEnded (MealRecord.id ⟨1, "a", MealType.lunch, 100, none⟩) 300
          ⟨1, "a", MealType.lunch, 100, none⟩ =
        ⟨1, "a", MealType.lunch, 100, some 300⟩ ∧
      (∀ x ∈ ([⟨1, "a", MealType.lunch, 100, none⟩,
          ⟨2, "b", MealType.dinner, 150, none⟩] : Store),
        x ≠ ⟨1, "a", MealType.lunch, 100, none⟩ →
          setEnded (MealRecord.id ⟨1, "a", MealType.lunch, 100, none⟩) 300 x = x)) :=
  ⟨by decide, by decide, by decide,
    end_meal_frame ⟨some "url", some "key"⟩
      [⟨1, "a", MealType.lunch, 100, none⟩, ⟨2, "b", MealType.dinner, 150, none⟩]
      "a" MealType.lunch 300 ⟨1, "a", MealType.lunch, 100, none⟩
      (by decide) (by decide) (by decide)⟩

/-- C5: `get_meals_today` returns the fixed "no meals" sentinel when the
caller has no record started today; otherwise it renders one line per such
record, in ascending `started_at` order, under the dated header.  The
rendered list is a permutation of the caller's records started today, so it
has exactly as many lines as there are such records. -/
theorem get_meals_today_spec (c : Config) (s : Store) (u : String) (t : Nat)
    (hc : c.bad = false) :
    (s.filter (fun r => r.user_id == u && decide (todayStart t ≤ r.started_at)) = [] →
      get_meals_today c s u t = .ok "No meals logged today.") ∧
    ((todays s u t).Perm
        (s.filter (fun r => r.user_id == u && decide (todayStart t ≤ r.started_at))) ∧
      (todays s u t).Pairwise (fun a b => a.started_at ≤ b.started_at) ∧
      (todays s u t).length =
        (s.filter (fun r => r.user_id == u && decide (todayStart t ≤ r.started_at))).length) ∧
    (todays s u t ≠ [] →
      get_meals_today c s u t =
        .ok (joinLines (("Meals for " ++ dateStr (dayOf t) ++ ":") ::
          (todays s u t).map renderLine))) := by
  have hperm : (todays s u t).Perm
      (s.filter (fun r => r.user_id == u && decide (todayStart t ≤ r.started_at))) :=
    List.perm_insertionSort (fun a b : MealRecord => a.started_at ≤ b.started_at) _
  refine ⟨?_, ⟨hperm, ?_, hperm.length_eq⟩, ?_⟩
  · intro h
    simp [get_meals_today, todays, hc, h, List.insertionSort]
  · exact List.sorted_insertionSort (fun a b : MealRecord => a.started_at ≤ b.started_at) _
  · intro hne
    cases h2 : todays s u t with
    | nil => exact absurd h2 hne
    | cons x xs => simp [get_meals_today, hc, h2]

/-- Witness for C5: two records of today render as two ascending lines. -/
theorem get_meals_today_spec_witness :
    (⟨some "url", some "key"⟩ : Config).bad = false ∧
    ((([⟨1, "a", MealType.lunch, 12 * 3600, none⟩,
        ⟨2, "a", MealType.breakfast, 8 * 3600, some (9 * 3600)⟩] : Store).filter
          (fun r => r.user_id == "a" && decide (todayStart (13 * 3600) ≤ r.started_at)) = [] →
        get_meals_today ⟨some "url", some "key"⟩
          [⟨1, "a", MealType.lunch, 12 * 3600, none⟩,
           ⟨2, "a", MealType.breakfast, 8 * 3600, some (9 * 3600)⟩] "a" (13 * 3600) =
          .ok "No meals logged today.") ∧
      ((todays [⟨1, "a", MealType.lunch, 12 * 3600, none⟩,
          ⟨2, "a", MealType.breakfast, 8 * 3600, some (9 * 3600)⟩] "a" (13 * 3600)).Perm
          (([⟨1, "a", MealType.lunch, 12 * 3600, none⟩,
             ⟨2, "a", MealType.breakfast, 8 * 3600, some (9 * 3600)⟩] : Store).filter
            (fun r => r.user_id == "a" && decide (todayStart (13 * 3600) ≤ r.started_at))) ∧
        (todays [⟨1, "a", MealType.lunch, 12 * 3600, none⟩,
          ⟨2, "a", MealType.breakfast, 8 * 3600, some (9 * 3600)⟩] "a" (13 * 3600)).Pairwise
          (fun a b => a.started_at ≤ b.started_at) ∧
        (todays [⟨1, "a", MealType.lunch, 12 * 3600, none⟩,
          ⟨2, "a", MealType.breakfast, 8 * 3600, some (9 * 3600)⟩] "a" (13 * 3600)).length =
          (([⟨1, "a", MealType.lunch, 12 * 3600, none⟩,
             ⟨2, "a", MealType.breakfast, 8 * 3600, some (9 * 3600)⟩] : Store).filter
            (fun r => r.user_id == "a" && decide (todayStart (13 * 3600) ≤ r.started_at))).length) ∧
      (todays [⟨1, "a", MealType.lunch, 12 * 3600, none⟩,
          ⟨2, "a", MealType.breakfast, 8 * 3600, some (9 * 3600)⟩] "a" (13 * 3600) ≠ [] →
        get_meals_today ⟨some "url", some "key"⟩
          [⟨1, "a", MealType.lunch, 12 * 3600, none⟩,
           ⟨2, "a", MealType.breakfast, 8 * 3600, some (9 * 3600)⟩] "a" (13 * 3600) =
          .ok (joinLines (("Meals for " ++ dateStr (dayOf (13 * 3600)) ++ ":") ::
            (todays [⟨1, "a", MealType.lunch, 12 * 3600, none⟩,
              ⟨2, "a", MealType.breakfast, 8 * 3600, some (9 * 3600)⟩] "a"
                (13 * 3600)).map renderLine)))) :=
  ⟨by decide,
    get_meals_today_spec ⟨some "url", some "key"⟩
      [⟨1, "a", MealType.lunch, 12 * 3600, none⟩,
       ⟨2, "a", MealType.breakfast, 8 * 3600, some (9 * 3600)⟩] "a" (13 * 3600)
      (by decide)⟩

/-- C10: all four operations filter on the caller's `user_id`, so two stores
agreeing on the caller's rows produce the same selected record, the same
reply text, and the same reports, whatever the other users' rows are. -/
theorem ops_depend_only_on_caller (c : Config) (s₁ s₂ : Store) (u : String)
    (mt : MealType) (t : Nat) (days : Int)
    (h : s₁.filter (fun r => r.user_id == u) = s₂.filter (fun r => r.user_id == u)) :
    end_meal_target s₁ u mt t = end_meal_target s₂ u mt t ∧
    (end_meal c s₁ u mt t).map Prod.fst = (end_meal c s₂ u mt t).map Prod.fst ∧
    get_meals_today c s₁ u t = get_meals_today c s₂ u t ∧
    get_meals_history c s₁ u days = get_meals_history c s₂ u days := by
  have hcand : s₁.filter (isCandidate u mt t) = s₂.filter (isCandidate u mt t) := by
    apply filter_eq_of_user_eq h
    intro r hr
    simp only [isCandidate, Bool.and_eq_true] at hr
    exact hr.1.1.1
  have htoday : s₁.filter (fun r => r.user_id == u && decide (todayStart t ≤ r.started_at)) =
      s₂.filter (fun r => r.user_id == u && decide (todayStart t ≤ r.started_at)) := by
    apply filter_eq_of_user_eq h
    intro r hr
    simp only [Bool.and_eq_true] at hr
    exact hr.1
  have htgt : end_meal_target s₁ u mt t = end_meal_target s₂ u mt t := by
    unfold end_meal_target
    rw [hcand]
  have htodays : todays s₁ u t = todays s₂ u t := by
    unfold todays
    rw [htoday]
  have hdesc : userDesc s₁ u = userDesc s₂ u := by
    unfold userDesc
    rw [h]
  have hdates : historyDates s₁ u days = historyDates s₂ u days := by
    unfold historyDates allDates
    rw [hdesc]
  refine ⟨htgt, ?_, ?_, ?_⟩
  · unfold end_meal
    rw [htgt]
    cases hb : c.bad with
    | true => simp
    | false => cases end_meal_target s₂ u mt t <;> simp [Except.map]
  · unfold get_meals_today
    rw [htodays]
  · unfold get_meals_history
    rw [hdesc, hdates]

/-- Witness for C10: adding another user's row changes nothing the caller
sees. -/
theorem ops_depend_only_on_caller_witness :
    ([⟨1, "a", MealType.lunch, 100, none⟩] : Store).filter
        (fun r => r.user_id == "a") =
      ([⟨1, "a", MealType.lunch, 100, none⟩,
        ⟨2, "b", MealType.dinner, 150, none⟩] : Store).filter
        (fun r => r.user_id == "a") ∧
    (end_meal_target [⟨1, "a", MealType.lunch, 100, none⟩] "a" MealType.lunch 300 =
        end_meal_target [⟨1, "a", MealType.lunch, 100, none⟩,
          ⟨2, "b", MealType.dinner, 150, none⟩] "a" MealType.lunch 300 ∧
      (end_meal ⟨some "url", some "key"⟩ [⟨1, "a", MealType.lunch, 100, none⟩]
          "a" MealType.lunch 300).map Prod.fst =
        (end_meal ⟨some "url", some "key"⟩ [⟨1, "a", MealType.lunch, 100, none⟩,
          ⟨2, "b", MealType.dinner, 150, none⟩] "a" MealType.lunch 300).map Prod.fst ∧
      get_meals_today ⟨some "url", some "key"⟩ [⟨1, "a", MealType.lunch, 100, none⟩]
          "a" 300 =
        get_meals_today ⟨some "url", some "key"⟩ [⟨1, "a", MealType.lunch, 100, none⟩,
          ⟨2, "b", MealType.dinner, 150, none⟩] "a" 300 ∧
      get_meals_history ⟨some "url", some "key"⟩ [⟨1, "a", MealType.lunch, 100, none⟩]
          "a" 7 =
        get_meals_history ⟨some "url", some "key"⟩ [⟨1, "a", MealType.lunch, 100, none⟩,
          ⟨2, "b", MealType.dinner, 150, none⟩] "a" 7) :=
  ⟨by decide,
    ops_depend_only_on_caller ⟨some "url", some "key"⟩
      [⟨1, "a", MealType.lunch, 100, none⟩]
      [⟨1, "a", MealType.lunch, 100, none⟩, ⟨2, "b", MealType.dinner, 150, none⟩]
      "a" MealType.lunch 300 7 (by decide)⟩

/-- C2: for a non-negative `days`, `get_meals_history` renders exactly the
most recent `days` distinct dates that have at least one of the caller's
records — sorted most-recent first, without duplicates, each backed by a
record, `min days (number of dates with data)` many, every omitted date
older than every kept one — with each kept date's section grouped from the
caller's records of that date. -/
theorem history_selects_most_recent_dates (c : Config) (s : Store) (u : String)
    (days : Int) (hc : c.bad = false) (hd : 0 ≤ days) :
    (historyDates s u days).Pairwise (fun a b => b ≤ a) ∧
    (historyDates s u days).Nodup ∧
    (∀ d ∈ historyDates s u days, d ∈ allDates s u) ∧
    (historyDates s u days).length = min days.toNat (allDates s u).length ∧
    (∀ d ∈ allDates s u, d ∉ historyDates s u days →
      ∀ e ∈ historyDates s u days, d < e) ∧
    (userDesc s u ≠ [] → historyDates s u days ≠ [] →
      get_meals_history c s u days =
        .ok (joinLines (("Meal history (last " ++ toString days ++ " days):") ::
          ((historyDates s u days).map (dateSection (userDesc s u))).flatten))) := by
  have hperm : (List.insertionSort (fun a b : Nat => b ≤ a) (allDates s u)).Perm
      (allDates s u) := List.perm_insertionSort (fun a b : Nat => b ≤ a) _
  have hsorted : List.Pairwise (fun a b : Nat => b ≤ a)
      (List.insertionSort (fun a b : Nat => b ≤ a) (allDates s u)) :=
    List.sorted_insertionSort (fun a b : Nat => b ≤ a) _
  have hnodup : (List.insertionSort (fun a b : Nat => b ≤ a) (allDates s u)).Nodup :=
    hperm.nodup_iff.mpr (List.nodup_dedup _)
  have hslice : historyDates s u days =
      (List.insertionSort (fun a b : Nat => b ≤ a) (allDates s u)).take days.toNat := by
    unfold historyDates pySlice
    rw [if_pos hd]
  have htake : ((List.insertionSort (fun a b : Nat => b ≤ a) (allDates s u)).take
      days.toNat).Sublist (List.insertionSort (fun a b : Nat => b ≤ a) (allDates s u)) :=
    List.take_sublist _ _
  refine ⟨?_, ?_, ?_, ?_, ?_, ?_⟩
  · rw [hslice]
    exact List.Pairwise.sublist htake hsorted
  · rw [hslice]
    exact hnodup.sublist htake
  · intro d hdm
    rw [hslice] at hdm
    exact hperm.mem_iff.mp (htake.mem hdm)
  · rw [hslice, List.length_take, hperm.length_eq]
  · intro d hdAll hdNot e heMem
    rw [hslice] at hdNot heMem
    have hdL : d ∈ List.insertionSort (fun a b : Nat => b ≤ a) (allDates s u) :=
      hperm.mem_iff.mpr hdAll
    have hsplit := List.take_append_drop days.toNat
      (List.insertionSort (fun a b : Nat => b ≤ a) (allDates s u))
    rw [← hsplit] at hdL hsorted hnodup
    have hdDrop : d ∈ (List.insertionSort (fun a b : Nat => b ≤ a) (allDates s u)).drop
        days.toNat := by
      rcases List.mem_append.mp hdL with hIn | hIn
      · exact absurd hIn hdNot
      · exact hIn
    have hle : d ≤ e :=
      (List.pairwise_append.mp hsorted).2.2 e heMem d hdDrop
    have hneq : d ≠ e := by
      intro hEq
      have hdisj := (List.nodup_append.mp hnodup).2.2
      exact hdisj (hEq ▸ heMem) hdDrop
    omega
  · intro h1 h2
    cases hud : userDesc s u with
    | nil => exact absurd hud h1
    | cons x xs =>
      cases hhd : historyDates s u days with
      | nil => exact absurd hhd h2
      | cons d ds => simp [get_meals_history, hc, hud, hhd]

/-- Witness for C2: records on three dates, `days = 2` keeps the two most
recent. -/
theorem history_selects_most_recent_dates_witness :
    (⟨some "url", some "key"⟩ : Config).bad = false ∧ (0 : Int) ≤ 2 ∧
    ((historyDates [⟨1, "a", MealType.lunch, 100, none⟩,
        ⟨2, "a", MealType.lunch, 86400 + 100, none⟩,
        ⟨3, "a", MealType.lunch, 2 * 86400 + 100, none⟩] "a" 2).Pairwise
        (fun a b => b ≤ a) ∧
      (historyDates [⟨1, "a", MealType.lunch, 100, none⟩,
        ⟨2, "a", MealType.lunch, 86400 + 100, none⟩,
        ⟨3, "a", MealType.lunch, 2 * 86400 + 100, none⟩] "a" 2).Nodup ∧
      (∀ d ∈ historyDates [⟨1, "a", MealType.lunch, 100, none⟩,
          ⟨2, "a", MealType.lunch, 86400 + 100, none⟩,
          ⟨3, "a", MealType.lunch, 2 * 86400 + 100, none⟩] "a" 2,
        d ∈ allDates [⟨1, "a", MealType.lunch, 100, none⟩,
          ⟨2, "a", MealType.lunch, 86400 + 100, none⟩,
          ⟨3, "a", MealType.lunch, 2 * 86400 + 100, none⟩] "a") ∧
      (historyDates [⟨1, "a", MealType.lunch, 100, none⟩,
          ⟨2, "a", MealType.lunch, 86400 + 100, none⟩,
          ⟨3, "a", MealType.lunch, 2 * 86400 + 100, none⟩] "a" 2).length =
        min (2 : Int).toNat (allDates [⟨1, "a", MealType.lunch, 100, none⟩,
          ⟨2, "a", MealType.lunch, 86400 + 100, none⟩,
          ⟨3, "a", MealType.lunch, 2 * 86400 + 100, none⟩] "a").length ∧
      (∀ d ∈ allDates [⟨1, "a", MealType.lunch, 100, none⟩,
          ⟨2, "a", MealType.lunch, 86400 + 100, none⟩,
          ⟨3, "a", MealType.lunch, 2 * 86400 + 100, none⟩] "a",
        d ∉ historyDates [⟨1, "a", MealType.lunch, 100, none⟩,
          ⟨2, "a", MealType.lunch, 86400 + 100, none⟩,
          ⟨3, "a", MealType.lunch, 2 * 86400 + 100, none⟩] "a" 2 →
        ∀ e ∈ historyDates [⟨1, "a", MealType.lunch, 100, none⟩,
          ⟨2, "a", MealType.lunch, 86400 + 100, none⟩,
          ⟨3, "a", MealType.lunch, 2 * 86400 + 100, none⟩] "a" 2, d < e) ∧
      (userDesc [⟨1, "a", MealType.lunch, 100, none⟩,
          ⟨2, "a", MealType.lunch, 86400 + 100, none⟩,
          ⟨3, "a", MealType.lunch, 2 * 86400 + 100, none⟩] "a" ≠ [] →
        historyDates [⟨1, "a", MealType.lunch, 100, none⟩,
          ⟨2, "a", MealType.lunch, 86400 + 100, none⟩,
          ⟨3, "a", MealType.lunch, 2 * 86400 + 100, none⟩] "a" 2 ≠ [] →
        get_meals_history ⟨some "url", some "key"⟩
            [⟨1, "a", MealType.lunch, 100, none⟩,
             ⟨2, "a", MealType.lunch, 86400 + 100, none⟩,
             ⟨3, "a", MealType.lunch, 2 * 86400 + 100, none⟩] "a" 2 =
          .ok (joinLines (("Meal history (last " ++ toString (2 : Int) ++ " days):") ::
            ((historyDates [⟨1, "a", MealType.lunch, 100, none⟩,
              ⟨2, "a", MealType.lunch, 86400 + 100, none⟩,
              ⟨3, "a", MealType.lunch, 2 * 86400 + 100, none⟩] "a" 2).map
              (dateSection (userDesc [⟨1, "a", MealType.lunch, 100, none⟩,
                ⟨2, "a", MealType.lunch, 86400 + 100, none⟩,
                ⟨3, "a", MealType.lunch, 2 * 86400 + 100, none⟩] "a"))).flatten)))) :=
  ⟨by decide, by decide,
    history_selects_most_recent_dates ⟨some "url", some "key"⟩
      [⟨1, "a", MealType.lunch, 100, none⟩,
       ⟨2, "a", MealType.lunch, 86400 + 100, none⟩,
       ⟨3, "a", MealType.lunch, 2 * 86400 + 100, none⟩] "a" 2 (by decide) (by decide)⟩

/-- C3 counterexample: with a breakfast 08:00–09:00 and a lunch 12:00–13:00
on the same date, the history report renders the lunch line before the
breakfast line — the date's records are not in ascending `started_at`
order (the ascending rendering would differ). -/
theorem history_within_date_ascending_cx :
    get_meals_history ⟨some "url", some "key"⟩
        [⟨1, "alice", MealType.breakfast, 8 * 3600, some (9 * 3600)⟩,
         ⟨2, "alice", MealType.lunch, 12 * 3600, some (13 * 3600)⟩] "alice" 7 =
      .ok "Meal history (last 7 days):\n\n1970-01-01:\n  - Lunch: 12:00 - 13:00 UTC\n  - Breakfast: 08:00 - 09:00 UTC" ∧
    ¬ ((userDesc [⟨1, "alice", MealType.breakfast, 8 * 3600, some (9 * 3600)⟩,
        ⟨2, "alice", MealType.lunch, 12 * 3600, some (13 * 3600)⟩] "alice").filter
          (fun r => dayOf r.started_at == 0)).Pairwise
        (fun a b => a.started_at ≤ b.started_at) ∧
    dateSection (userDesc [⟨1, "alice", MealType.breakfast, 8 * 3600, some (9 * 3600)⟩,
        ⟨2, "alice", MealType.lunch, 12 * 3600, some (13 * 3600)⟩] "alice") 0 ≠
      ("\n" ++ dateStr 0 ++ ":") ::
        (List.insertionSort (fun a b => a.started_at ≤ b.started_at)
          ((userDesc [⟨1, "alice", MealType.breakfast, 8 * 3600, some (9 * 3600)⟩,
            ⟨2, "alice", MealType.lunch, 12 * 3600, some (13 * 3600)⟩] "alice").filter
              (fun r => dayOf r.started_at == 0))).map renderLine :=
  ⟨rfl, by decide, by decide⟩

/-- C3 (amended): within each date section of the history report, the
records of that date are rendered in DESCENDING order of `started_at` (the
query sorts descending and the per-date grouping preserves that order). -/
theorem history_within_date_descending (s : Store) (u : String) (d : Nat) :
    ((userDesc s u).filter (fun r => dayOf r.started_at == d)).Pairwise
      (fun a b => b.started_at ≤ a.started_at) ∧
    dateSection (userDesc s u) d =
      ("\n" ++ dateStr d ++ ":") ::
        ((userDesc s u).filter (fun r => dayOf r.started_at == d)).map renderLine := by
  constructor
  · have hs : List.Pairwise (fun a b : MealRecord => b.started_at ≤ a.started_at)
        (userDesc s u) := by
      unfold userDesc
      exact List.sorted_insertionSort (fun a b : MealRecord => b.started_at ≤ a.started_at) _
    exact List.Pairwise.sublist (List.filter_sublist _) hs
  · rfl

/-- C8 counterexample: `days = -1 ≤ 0`, yet with records on two distinct
dates the report is produced (Python's `[:-1]` slice keeps all but the last
date), not the sentinel. -/
theorem history_nonpositive_days_cx :
    (-1 : Int) ≤ 0 ∧
    get_meals_history ⟨some "url", some "key"⟩
        [⟨1, "bob", MealType.breakfast, 8 * 3600, none⟩,
         ⟨2, "bob", MealType.lunch, 86400 + 12 * 3600, none⟩] "bob" (-1) =
      .ok "Meal history (last -1 days):\n\n1970-01-02:\n  - Lunch: 12:00 - ongoing UTC" ∧
    ("Meal history (last -1 days):\n\n1970-01-02:\n  - Lunch: 12:00 - ongoing UTC" : String) ≠
      "No meal history found." :=
  ⟨by decide, rfl, by decide⟩

/-- C8 (amended): for `days ≤ 0`, `get_meals_history` returns the
"No meal history found." sentinel exactly when `days = 0` or the caller has
at most `-days` distinct dates with records — for `days = 0` the slice is
always empty, while a negative `days` drops only the last `-days` dates. -/
theorem history_nonpositive_days (c : Config) (s : Store) (u : String)
    (days : Int) (hc : c.bad = false) (hd : days ≤ 0) :
    (get_meals_history c s u days = .ok "No meal history found." ↔
      days = 0 ∨ ((allDates s u).length : Int) ≤ -days) := by
  have hLlen : (List.insertionSort (fun a b : Nat => b ≤ a) (allDates s u)).length =
      (allDates s u).length :=
    (List.perm_insertionSort (fun a b : Nat => b ≤ a) _).length_eq
  have hempty : historyDates s u days = [] ↔
      (days = 0 ∨ ((allDates s u).length : Int) ≤ -days) := by
    unfold historyDates pySlice
    rcases lt_or_eq_of_le hd with hlt | hEq
    · rw [if_neg (by omega), List.take_eq_nil_iff]
      constructor
      · rintro (h0 | hnil)
        · rw [Int.toNat_eq_zero] at h0
          right
          omega
        · right
          rw [hnil] at hLlen
          simp at hLlen
          omega
      · rintro (h0 | hlen)
        · omega
        · left
          rw [Int.toNat_eq_zero]
          omega
    · rw [if_pos (by omega : (0 : Int) ≤ days), hEq]
      simp
  constructor
  · intro hok
    by_contra hrhs
    push_neg at hrhs
    have hdne : historyDates s u days ≠ [] := by
      intro hnil
      rw [hempty] at hnil
      rcases hnil with h0 | hlen
      · exact hrhs.1 h0
      · omega
    have hud : userDesc s u ≠ [] := by
      intro hnil
      have hall : allDates s u = [] := by
        unfold allDates
        rw [hnil]
        rfl
      rw [hall] at hrhs
      simp at hrhs
      omega
    cases hud2 : userDesc s u with
    | nil => exact absurd hud2 hud
    | cons x xs =>
      cases hdd : historyDates s u days with
      | nil => exact absurd hdd hdne
      | cons d ds =>
        rw [get_meals_history, hc] at hok
        simp only [Bool.false_eq_true, if_false, hud2, hdd, Except.ok.injEq] at hok
        exact history_header_ne days _ hok
  · intro hrhs
    have hdd : historyDates s u days = [] := hempty.mpr hrhs
    cases hud2 : userDesc s u with
    | nil => simp [get_meals_history, hc, hud2]
    | cons x xs => simp [get_meals_history, hc, hud2, hdd]

/-- Witness for the amended C8: `days = 0` with one record still yields the
sentinel. -/
theorem history_nonpositive_days_witness :
    (⟨some "url", some "key"⟩ : Config).bad = false ∧ (0 : Int) ≤ 0 ∧
    (get_meals_history ⟨some "url", some "key"⟩
        [⟨1, "bob", MealType.breakfast, 8 * 3600, none⟩] "bob" 0 =
        .ok "No meal history found." ↔
      (0 : Int) = 0 ∨
        ((allDates [⟨1, "bob", MealType.breakfast, 8 * 3600, none⟩] "bob").length : Int) ≤
          -(0 : Int)) :=
  ⟨by decide, by decide,
    history_nonpositive_days ⟨some "url", some "key"⟩
      [⟨1, "bob", MealType.breakfast, 8 * 3600, none⟩] "bob" 0
      (by decide) (by decide)⟩

end Meals
